import Mathlib

/- Verification of the MFEM adaptive-mesh-refinement control subsystem
   (mesh/controls.hpp): the ActionInfo bit encoding and its query predicates,
   the MeshControl Update state machine, the ThresholdAMRMarker threshold
   marking with its mesh-version cache, the MeshControlSequence composition,
   and the concrete refinement / de-refinement / rebalance controls.

   Numeric model: C++ double values are modelled as exact rationals; the real
   power function pow(x, y) used only by the finite-p norm branch is kept as
   an explicit function parameter qp, since every concrete computation here
   exercises the p = infinity branch.  ActionInfo int values are modelled as
   Nat: all ActionInfo enum constants are nonnegative and Apply returns
   bitwise combinations of them. -/

namespace Mfem

/-- The ActionInfo action constant NONE = 0 (mesh not modified). -/
def NONE : Nat := 0

/-- The ActionInfo action constant CONTINUE = 1 (update spaces, continue). -/
def CONTINUE : Nat := 1

/-- The ActionInfo action constant STOP = 2 (a stopping criterion holds). -/
def STOP : Nat := 2

/-- The ActionInfo action constant AGAIN = 3 (update spaces, call Update again). -/
def AGAIN : Nat := 3

/-- The ActionInfo mask UPDATE = 1 (the update bit). -/
def UPDATE : Nat := 1

/-- The ActionInfo mask ACTION = 3 (the two action bits). -/
def ACTION : Nat := 3

/-- The ActionInfo info constant REFINE = 4*1. -/
def REFINE : Nat := 4 * 1

/-- The ActionInfo info constant DEREFINE = 4*2. -/
def DEREFINE : Nat := 4 * 2

/-- The ActionInfo info constant REBALANCE = 4*3. -/
def REBALANCE : Nat := 4 * 3

/-- The action field of an ActionInfo value: mod & ACTION. -/
def actionField (mod : Nat) : Nat := mod &&& ACTION

/-- The info field of an ActionInfo value: mod & INFO with INFO = ~3.
    On a nonnegative value, masking with ~3 clears exactly the two action
    bits, so it equals mod minus its action field. -/
def infoField (mod : Nat) : Nat := mod - (mod &&& ACTION)

/-- MeshControl::Stop (controls.hpp line 192): (mod & ACTION) == STOP. -/
def Stop (mod : Nat) : Bool := actionField mod == STOP

/-- MeshControl::Again (controls.hpp line 195): (mod & ACTION) == AGAIN. -/
def Again (mod : Nat) : Bool := actionField mod == AGAIN

/-- MeshControl::Continue (controls.hpp line 198): (mod & ACTION) == CONTINUE. -/
def Continue (mod : Nat) : Bool := actionField mod == CONTINUE

/-- MeshControl::Refine (controls.hpp line 201): (mod & INFO) == REFINE. -/
def Refine (mod : Nat) : Bool := infoField mod == REFINE

/-- MeshControl::Derefine (controls.hpp line 203): (mod & INFO) == DEREFINE. -/
def Derefine (mod : Nat) : Bool := infoField mod == DEREFINE

/-- MeshControl::Rebalance (controls.hpp line 205): (mod & INFO) == REBALANCE. -/
def Rebalance (mod : Nat) : Bool := infoField mod == REBALANCE

/-- The mesh collaborator, reduced to the interfaces the control subsystem
    consumes (spec section 6): the monotonic version/sequence counter, the
    element count, and whether the mesh is distributed (parallel). -/
structure Mesh where
  sequence : Int
  numElements : Nat
  distributed : Bool
deriving DecidableEq

/-- A refinement record: element index plus refinement-type tag
    (the mfem::Refinement struct passed to GeneralRefinement). -/
structure Refinement where
  index : Nat
  ref_type : Nat
deriving DecidableEq

/-- The norm exponent p: a finite rational exponent or infinity
    (total_norm_p is a double whose default is numeric_limits infinity). -/
inductive NormP where
  | fin (p : ℚ)
  | inf
deriving DecidableEq

/-- ThresholdAMRMarker state (controls.hpp lines 57-125): configuration
    values, the derived threshold, the cached marked-element list, the
    version stamp, and the marked-element count from MeshMarker. -/
structure ThresholdAMRMarker where
  total_norm_p : NormP
  total_err_goal : ℚ
  total_fraction : ℚ
  local_err_goal : ℚ
  max_elements : Int
  threshold : ℚ
  marked_elements : List Refinement
  current_sequence : Int
  num_marked_elements : Int
deriving DecidableEq

/-- ThresholdAMRMarker::SetTotalErrorNormP (controls.hpp line 87):
    a plain assignment of the argument. -/
def SetTotalErrorNormP (m : ThresholdAMRMarker) (norm_p : NormP) :
    ThresholdAMRMarker :=
  { m with total_norm_p := norm_p }

/-- ThresholdAMRMarker::SetTotalErrorGoal (controls.hpp line 93):
    a plain assignment of the argument. -/
def SetTotalErrorGoal (m : ThresholdAMRMarker) (err_goal : ℚ) :
    ThresholdAMRMarker :=
  { m with total_err_goal := err_goal }

/-- ThresholdAMRMarker::SetTotalErrorFraction (controls.hpp line 99):
    a plain assignment of the argument. -/
def SetTotalErrorFraction (m : ThresholdAMRMarker) (fraction : ℚ) :
    ThresholdAMRMarker :=
  { m with total_fraction := fraction }

/-- ThresholdAMRMarker::SetLocalErrorGoal (controls.hpp line 105):
    a plain assignment of the argument. -/
def SetLocalErrorGoal (m : ThresholdAMRMarker) (err_goal : ℚ) :
    ThresholdAMRMarker :=
  { m with local_err_goal := err_goal }

/-- ThresholdAMRMarker::SetMaxElements (controls.hpp line 110):
    a plain assignment of the argument. -/
def SetMaxElements (m : ThresholdAMRMarker) (max_elem : Int) :
    ThresholdAMRMarker :=
  { m with max_elements := max_elem }

/-- Modelled from the spec: the body of ThresholdAMRMarker::GetNorm lives in
    mesh/controls.cpp, which is not among the provided sources.  Spec 4.1
    step 2: if p = infinity, the maximum absolute error; otherwise
    (sum of err_i^p)^(1/p), with the real power function given as qp. -/
def GetNorm (qp : ℚ → ℚ → ℚ) (p : NormP) (local_err : List ℚ) : ℚ :=
  match p with
  | NormP.inf => local_err.foldr (fun e acc => max (abs e) acc) 0
  | NormP.fin q => qp (local_err.foldr (fun e acc => qp e q + acc) 0) (1 / q)

/-- Modelled from the spec: the element-count factor num_elements^(-1/p) of
    the threshold formula (controls.hpp lines 50-53, spec 4.1 step 3); the
    factor degenerates to 1 when p = infinity. -/
def countFactor (qp : ℚ → ℚ → ℚ) (p : NormP) (numElements : Nat) : ℚ :=
  match p with
  | NormP.inf => 1
  | NormP.fin q => qp (numElements : ℚ) (-(1 / q))

/-- Modelled from the spec: spec 4.1 step 4, mark every element i whose
    error exceeds the threshold; tyf is the per-element refinement-type tag
    (the anisotropic direction when an anisotropic estimator is attached,
    the undirected tag otherwise); s is the index of the first list entry. -/
def markList (tyf : Nat → Nat) (threshold : ℚ) : List ℚ → Nat → List Refinement
  | [], _ => []
  | e :: rest, s =>
    if threshold < e then
      Refinement.mk s (tyf s) :: markList tyf threshold rest (s + 1)
    else
      markList tyf threshold rest (s + 1)

/-- Modelled from the spec: the body of ThresholdAMRMarker::MarkElements
    lives in mesh/controls.cpp, which is not among the provided sources.
    Spec 4.1: obtain the estimator's per-element error vector errs, whose
    length is the live element count (step 1); compute total_err (step 2);
    compute threshold = max(total_err * total_fraction *
    element_count^(-1/p), local_err_goal) (step 3); mark every element
    above the threshold (step 4); update num_marked_elements and the
    version stamp (step 6). -/
def MarkElements (qp : ℚ → ℚ → ℚ) (tyf : Nat → Nat)
    (marker : ThresholdAMRMarker) (mesh : Mesh) (errs : List ℚ) :
    ThresholdAMRMarker :=
  let total_err := GetNorm qp marker.total_norm_p errs
  let threshold :=
    max (total_err * marker.total_fraction *
          countFactor qp marker.total_norm_p errs.length)
        marker.local_err_goal
  let marked := markList tyf threshold errs 0
  { marker with
      threshold := threshold
      marked_elements := marked
      num_marked_elements := (marked.length : Int)
      current_sequence := mesh.sequence }

/-- ThresholdAMRMarker::GetMarkedElements (controls.hpp lines 113-118):
    MFEM_ASSERT(current_sequence <= mesh.GetSequence()) is modelled as the
    error case of an Except (the assertion abort); the marker recomputes via
    MarkElements exactly when current_sequence < mesh.GetSequence(), and the
    call returns the possibly updated marker state together with its
    marked_elements list. -/
def GetMarkedElements (qp : ℚ → ℚ → ℚ) (tyf : Nat → Nat)
    (marker : ThresholdAMRMarker) (mesh : Mesh) (errs : List ℚ) :
    Except Unit (ThresholdAMRMarker × List Refinement) :=
  if marker.current_sequence ≤ mesh.sequence then
    if marker.current_sequence < mesh.sequence then
      let m := MarkElements qp tyf marker mesh errs
      Except.ok (m, m.marked_elements)
    else
      Except.ok (marker, marker.marked_elements)
  else
    Except.error ()

/-- The recomputation trigger of GetMarkedElements: the cached stamp is
    strictly below the mesh's live sequence (the if condition on
    controls.hpp line 116). -/
def needsRecompute (marker : ThresholdAMRMarker) (mesh : Mesh) : Bool :=
  decide (marker.current_sequence < mesh.sequence)

/-- The MeshControl per-object state: the mod value stored by the last
    Update call (controls.hpp line 148). -/
structure ControlState where
  mod : Nat
deriving DecidableEq

/-- MeshControl::GetActionInfo (controls.hpp line 209): return mod. -/
def GetActionInfo (st : ControlState) : Nat := st.mod

/-- MeshControl::Update (controls.hpp line 188):
    return ((mod = Apply(mesh)) & UPDATE); Apply may mutate the mesh, so an
    Apply function returns the ActionInfo value and the new mesh, and the
    C++ int-to-bool conversion of (mod & UPDATE) is the nonzero test. -/
def Update (apply : Mesh → Nat × Mesh) (_st : ControlState) (mesh : Mesh) :
    ControlState × Mesh × Bool :=
  let r := apply mesh
  (ControlState.mk r.1, r.2, ((r.1 &&& UPDATE) != 0))

/-- Modelled from the spec: the body of RefinementControl::Apply lives in
    mesh/controls.cpp, which is not among the provided sources.  Header doc
    (controls.hpp lines 259-261) and spec 4.2: if the marker's current
    marked-element list is empty, return STOP; otherwise invoke the mesh's
    GeneralRefinement through the external executor gref (with the
    conforming/nonconforming mode and the nc limit) and return
    REFINE + CONTINUE.  marked is the list obtained from the control's
    MeshMarker. -/
def refinementApply (gref : Mesh → List Refinement → Int → Int → Mesh)
    (marked : List Refinement) (non_conforming nc_limit : Int)
    (mesh : Mesh) : Nat × Mesh :=
  if marked.isEmpty then
    (STOP, mesh)
  else
    (REFINE + CONTINUE, gref mesh marked non_conforming nc_limit)

/-- Modelled from the spec: the body of ThresholdDerefineControl::Apply
    lives in mesh/controls.cpp, which is not among the provided sources.
    Header doc (controls.hpp lines 303-305) and spec 4.2: DEREFINE +
    CONTINUE if some elements were de-refined, NONE otherwise; the external
    de-refinement executor deref returns the new mesh and whether any group
    was de-refined. -/
def thresholdDerefineApply (deref : Mesh → Mesh × Bool) (mesh : Mesh) :
    Nat × Mesh :=
  let r := deref mesh
  if r.2 then (DEREFINE + CONTINUE, r.1) else (NONE, mesh)

/-- Modelled from the spec: the body of ThresholdDerefineControl2::Apply
    lives in mesh/controls.cpp, which is not among the provided sources.
    Spec 4.2: stage 0 de-refines; with nothing de-refined it reports NONE,
    otherwise it enters stage 1 and reports AGAIN; stage 1 performs
    refinement passes to restore the nonconforming-level limit, reporting
    AGAIN until the limit holds, then reports DEREFINE + CONTINUE and
    returns to stage 0.  Returns (ActionInfo, new stage, new mesh). -/
def thresholdDerefine2Apply (deref : Mesh → Mesh × Bool)
    (limitOk : Mesh → Bool) (refineToLimit : Mesh → Mesh)
    (stage : Nat) (mesh : Mesh) : Nat × Nat × Mesh :=
  if stage = 0 then
    let r := deref mesh
    if r.2 then (AGAIN, 1, r.1) else (NONE, 0, mesh)
  else
    let m := refineToLimit mesh
    if limitOk m then (DEREFINE + CONTINUE, 0, m) else (AGAIN, 1, m)

/-- Modelled from the spec: the body of RebalanceControl::Apply lives in
    mesh/controls.cpp, which is not among the provided sources.  Header doc
    (controls.hpp lines 362-364) and spec 4.2: CONTINUE + REBALANCE after
    rebalancing a distributed (parallel) mesh, NONE otherwise; rebal is the
    external rebalance executor. -/
def rebalanceApply (rebal : Mesh → Mesh) (mesh : Mesh) : Nat × Mesh :=
  if mesh.distributed then (CONTINUE + REBALANCE, rebal mesh) else (NONE, mesh)

/-- Modelled from the spec: the body of MeshControlSequence::Apply lives in
    mesh/controls.cpp, which is not among the provided sources.  Spec 4.3:
    advance the step cursor through the owned list, invoking each member's
    Update until one reports an action other than NONE, and return that
    member's exact ActionInfo; if every member reports NONE, report NONE.
    Members are modelled by their Apply functions. -/
def seqApply : List (Mesh → Nat × Mesh) → Mesh → Nat × Mesh
  | [], mesh => (NONE, mesh)
  | c :: rest, mesh =>
    let r := c mesh
    if actionField r.1 = NONE then seqApply rest r.2 else r

/-- The ActionInfo values producible by the control subsystem: the initial
    NONE stored by the MeshControl constructor (controls.hpp line 158) and
    each concrete control's Apply results, closed under sequencing. -/
inductive Producible : Nat → Prop where
  | init : Producible NONE
  | refinement (gref : Mesh → List Refinement → Int → Int → Mesh)
      (marked : List Refinement) (nc ncl : Int) (mesh : Mesh) :
      Producible (refinementApply gref marked nc ncl mesh).1
  | derefine (deref : Mesh → Mesh × Bool) (mesh : Mesh) :
      Producible (thresholdDerefineApply deref mesh).1
  | derefine2 (deref : Mesh → Mesh × Bool) (limitOk : Mesh → Bool)
      (refineToLimit : Mesh → Mesh) (stage : Nat) (mesh : Mesh) :
      Producible (thresholdDerefine2Apply deref limitOk refineToLimit
        stage mesh).1
  | rebalance (rebal : Mesh → Mesh) (mesh : Mesh) :
      Producible (rebalanceApply rebal mesh).1
  | seq (cs : List (Mesh → Nat × Mesh)) (mesh : Mesh) :
      (∀ c ∈ cs, ∀ m, Producible (c m).1) →
      Producible (seqApply cs mesh).1

/-- The ActionInfo invariant of spec section 3: Stop excludes every info
    predicate, Refine entails Continue, and the info bits vanish when the
    action field is NONE or STOP. -/
def ActionInfoInv (m : Nat) : Prop :=
  (Stop m = true →
    Refine m = false ∧ Derefine m = false ∧ Rebalance m = false) ∧
  (Refine m = true → Continue m = true) ∧
  ((actionField m = NONE ∨ actionField m = STOP) → infoField m = 0)

/-- The scenario error vector [0.1, 0.9, 0.05, 0.95] of spec section 8. -/
def scenarioErrs : List ℚ := [1/10, 9/10, 1/20, 19/20]

/-- The scenario mesh: 4 elements, live sequence 1, not distributed. -/
def scenarioMesh : Mesh := Mesh.mk 1 4 false

/-- Modelled from the spec: a freshly constructed ThresholdAMRMarker
    (the constructor lives in mesh/controls.cpp, which is not among the
    provided sources) with the defaults documented at the setters:
    p = infinity, total and local error goals 0, total fraction 1/2,
    max_elements = LONG_MAX, stamp 0. -/
def defaultMarker : ThresholdAMRMarker :=
  ThresholdAMRMarker.mk NormP.inf 0 (1/2) 0 (2 ^ 63 - 1) 0 [] 0 0

/-- A trivial refinement executor used for concrete instantiations. -/
def grefId : Mesh → List Refinement → Int → Int → Mesh :=
  fun m _ _ _ => m

/-- A constant power function used for concrete instantiations where the
    p = infinity branch makes the power function irrelevant. -/
def qpZero : ℚ → ℚ → ℚ := fun _ _ => 0

/-- The undirected (isotropic) refinement-type tag for every element. -/
def tyIso : Nat → Nat := fun _ => 7

/-- A marker whose cached stamp is ahead of the scenario mesh's live
    sequence, as after an external mesh rollback. -/
def rolledBackMarker : ThresholdAMRMarker :=
  { defaultMarker with current_sequence := 5 }

instance : DecidablePred ActionInfoInv := fun m => by
  unfold ActionInfoInv
  infer_instance

/-- Masking a Nat with 3 keeps the value modulo 4. -/
lemma and_three_eq_mod (r : Nat) : r &&& 3 = r % 4 := by
  have h := Nat.and_pow_two_sub_one_eq_mod r 2
  norm_num at h
  exact h

/-- The C++ bool conversion of (mod & UPDATE) is true exactly when the
    action field is CONTINUE or AGAIN. -/
lemma update_bit_iff (r : Nat) :
    ((r &&& UPDATE) != 0) = true ↔
      (actionField r = CONTINUE ∨ actionField r = AGAIN) := by
  simp only [UPDATE, CONTINUE, AGAIN, actionField, ACTION,
    Nat.and_one_is_mod, and_three_eq_mod, bne_iff_ne, ne_eq]
  omega

/-- Every record produced by markList carries an index at least the start
    index. -/
lemma markList_index_ge (tyf : Nat → Nat) (t : ℚ) :
    ∀ (l : List ℚ) (s : Nat) (r : Refinement),
      r ∈ markList tyf t l s → s ≤ r.index := by
  intro l
  induction l with
  | nil => intro s r h; simp [markList] at h
  | cons e rest ih =>
    intro s r h
    by_cases hc : t < e
    · simp only [markList, if_pos hc, List.mem_cons] at h
      rcases h with h | h
      · subst h; exact Nat.le_refl s
      · exact Nat.le_trans (Nat.le_succ s) (ih (s + 1) r h)
    · simp only [markList, if_neg hc] at h
      exact Nat.le_trans (Nat.le_succ s) (ih (s + 1) r h)

/-- A record with index s + i is in markList starting at s exactly when
    position i of the error list exists and exceeds the threshold. -/
lemma markList_index_mem (tyf : Nat → Nat) (t : ℚ) :
    ∀ (l : List ℚ) (s i : Nat),
      (∃ r ∈ markList tyf t l s, r.index = s + i) ↔
        (i < l.length ∧ t < l.getD i 0) := by
  intro l
  induction l with
  | nil => intro s i; simp [markList]
  | cons e rest ih =>
    intro s i
    cases i with
    | zero =>
      by_cases hc : t < e
      · simp only [markList, if_pos hc, List.mem_cons]
        constructor
        · intro _; exact ⟨Nat.succ_pos _, by simpa using hc⟩
        · intro _
          exact ⟨Refinement.mk s (tyf s), Or.inl rfl, by simp⟩
      · simp only [markList, if_neg hc]
        constructor
        · intro ⟨r, hr, hidx⟩
          have := markList_index_ge tyf t rest (s + 1) r hr
          omega
        · intro ⟨_, hgt⟩
          exact absurd (by simpa using hgt) hc
    | succ j =>
      have base : (∃ r ∈ markList tyf t rest (s + 1),
          r.index = (s + 1) + j) ↔ (j < rest.length ∧ t < rest.getD j 0) :=
        ih (s + 1) j
      by_cases hc : t < e
      · simp only [markList, if_pos hc, List.mem_cons]
        constructor
        · intro ⟨r, hr, hidx⟩
          rcases hr with hr | hr
          · subst hr; simp at hidx
          · have : j < rest.length ∧ t < rest.getD j 0 :=
              base.1 ⟨r, hr, by omega⟩
            exact ⟨by simpa using Nat.succ_lt_succ this.1, by simpa using this.2⟩
        · intro ⟨hlen, hgt⟩
          have : j < rest.length ∧ t < rest.getD j 0 :=
            ⟨Nat.lt_of_succ_lt_succ (by simpa using hlen), by simpa using hgt⟩
          rcases base.2 this with ⟨r, hr, hidx⟩
          exact ⟨r, Or.inr hr, by omega⟩
      · simp only [markList, if_neg hc]
        constructor
        · intro ⟨r, hr, hidx⟩
          have : j < rest.length ∧ t < rest.getD j 0 :=
            base.1 ⟨r, hr, by omega⟩
          exact ⟨by simpa using Nat.succ_lt_succ this.1, by simpa using this.2⟩
        · intro ⟨hlen, hgt⟩
          have : j < rest.length ∧ t < rest.getD j 0 :=
            ⟨Nat.lt_of_succ_lt_succ (by simpa using hlen), by simpa using hgt⟩
          rcases base.2 this with ⟨r, hr, hidx⟩
          exact ⟨r, hr, by omega⟩

/-- markList produces nothing when every error is at most the threshold. -/
lemma markList_eq_nil (tyf : Nat → Nat) (t : ℚ) :
    ∀ (l : List ℚ) (s : Nat), (∀ e ∈ l, e ≤ t) → markList tyf t l s = [] := by
  intro l
  induction l with
  | nil => intro s _; rfl
  | cons e rest ih =>
    intro s h
    have he : e ≤ t := h e (List.mem_cons_self e rest)
    have hc : ¬ t < e := not_lt.mpr he
    simp only [markList, if_neg hc]
    exact ih (s + 1) (fun x hx => h x (List.mem_cons_of_mem e hx))

/-- The invariant is preserved by sequencing controls whose own results
    satisfy it. -/
lemma seqApply_inv (cs : List (Mesh → Nat × Mesh))
    (h : ∀ c ∈ cs, ∀ m, ActionInfoInv (c m).1) (mesh : Mesh) :
    ActionInfoInv (seqApply cs mesh).1 := by
  induction cs generalizing mesh with
  | nil => exact (by decide : ActionInfoInv NONE)
  | cons c rest ihl =>
    by_cases hc : actionField (c mesh).1 = NONE
    · simp only [seqApply, if_pos hc]
      exact ihl (fun d hd m => h d (List.mem_cons_of_mem c hd) m) (c mesh).2
    · simp only [seqApply, if_neg hc]
      exact h c (List.mem_cons_self c rest) mesh

/-- A sequence whose members all report action NONE reports NONE. -/
lemma seqApply_none (cs : List (Mesh → Nat × Mesh)) (mesh : Mesh)
    (h : ∀ c ∈ cs, ∀ m, actionField (c m).1 = NONE) :
    (seqApply cs mesh).1 = NONE := by
  induction cs generalizing mesh with
  | nil => rfl
  | cons c rest ihl =>
    have hc : actionField (c mesh).1 = NONE :=
      h c (List.mem_cons_self c rest) mesh
    simp only [seqApply, if_pos hc]
    exact ihl (c mesh).2 (fun d hd m => h d (List.mem_cons_of_mem c hd) m)

/-- C10: for every integer ActionInfo value, at most one of Refine,
    Derefine, Rebalance returns true: although REBALANCE = 12 is bitwise the
    OR of REFINE = 4 and DEREFINE = 8, each info predicate compares the
    whole masked info field for equality with its constant, so a value whose
    info field is 12 satisfies only Rebalance; likewise the action
    predicates Stop, Continue, Again are pairwise mutually exclusive on the
    2-bit action field. -/
theorem info_action_predicates_exclusive (m : Nat) :
    (Refine m = true → Derefine m = false ∧ Rebalance m = false) ∧
    (Derefine m = true → Refine m = false ∧ Rebalance m = false) ∧
    (Rebalance m = true → Refine m = false ∧ Derefine m = false) ∧
    (Stop m = true → Continue m = false ∧ Again m = false) ∧
    (Continue m = true → Stop m = false ∧ Again m = false) ∧
    (Again m = true → Stop m = false ∧ Continue m = false) := by
  simp only [Refine, Derefine, Rebalance, Stop, Continue, Again,
    REFINE, DEREFINE, REBALANCE, STOP, CONTINUE, AGAIN,
    beq_iff_eq, beq_eq_false_iff_ne, ne_eq]
  omega

/-- Witness for C10 at the concrete ActionInfo value 5 = CONTINUE + REFINE. -/
theorem info_action_predicates_exclusive_witness :
    Derefine 5 = false ∧ Rebalance 5 = false :=
  (info_action_predicates_exclusive 5).1 (by decide)

/-- C4: Update(mesh) calls Apply(mesh) once, stores the returned ActionInfo
    as the value reported by GetActionInfo, and returns true exactly when
    the action field of that result is CONTINUE or AGAIN (the UPDATE bit);
    it returns false when the action is NONE or STOP. -/
theorem update_stores_and_reports (apply : Mesh → Nat × Mesh)
    (st : ControlState) (mesh : Mesh) :
    (Update apply st mesh).1.mod = (apply mesh).1 ∧
    GetActionInfo (Update apply st mesh).1 = (apply mesh).1 ∧
    ((Update apply st mesh).2.2 = true ↔
      (actionField (apply mesh).1 = CONTINUE ∨
        actionField (apply mesh).1 = AGAIN)) ∧
    ((actionField (apply mesh).1 = NONE ∨
        actionField (apply mesh).1 = STOP) →
      (Update apply st mesh).2.2 = false) := by
  refine ⟨rfl, rfl, update_bit_iff (apply mesh).1, ?_⟩
  intro h
  show (((apply mesh).1 &&& UPDATE) != 0) = false
  rcases Bool.eq_false_or_eq_true (((apply mesh).1 &&& UPDATE) != 0) with
    hb | hb
  · exfalso
    have h2 := (update_bit_iff (apply mesh).1).1 hb
    simp only [actionField, ACTION, and_three_eq_mod, NONE, STOP, CONTINUE,
      AGAIN] at h h2
    omega
  · exact hb

/-- Witness for C4 at a concrete Apply returning CONTINUE + REFINE = 5. -/
theorem update_stores_and_reports_witness :
    (Update (fun m => (5, m)) (ControlState.mk 0) scenarioMesh).2.2 = true :=
  (update_stores_and_reports (fun m => (5, m)) (ControlState.mk 0)
    scenarioMesh).2.2.1.mpr (Or.inl (by decide))

/-- C1: every ActionInfo value a control stores satisfies the invariant:
    when Stop holds, Refine, Derefine and Rebalance are all false; when
    Refine holds, Continue holds; and the info bits are zero whenever the
    action field is NONE or STOP. -/
theorem actionInfo_invariant_of_producible (m : Nat) (h : Producible m) :
    ActionInfoInv m := by
  induction h with
  | init => decide
  | refinement gref marked nc ncl mesh =>
    rcases marked with _ | ⟨a, as⟩
    · exact (by decide : ActionInfoInv STOP)
    · exact (by decide : ActionInfoInv (REFINE + CONTINUE))
  | derefine deref mesh =>
    rcases hr : deref mesh with ⟨m2, b⟩
    simp only [thresholdDerefineApply, hr]
    cases b
    · exact (by decide : ActionInfoInv NONE)
    · exact (by decide : ActionInfoInv (DEREFINE + CONTINUE))
  | derefine2 deref limitOk refineToLimit stage mesh =>
    cases stage with
    | zero =>
      rcases hr : deref mesh with ⟨m2, b⟩
      simp only [thresholdDerefine2Apply, if_pos rfl, hr]
      cases b
      · exact (by decide : ActionInfoInv NONE)
      · exact (by decide : ActionInfoInv AGAIN)
    | succ n =>
      simp only [thresholdDerefine2Apply, if_neg (Nat.succ_ne_zero n)]
      cases hl : limitOk (refineToLimit mesh)
      · exact (by decide : ActionInfoInv AGAIN)
      · exact (by decide : ActionInfoInv (DEREFINE + CONTINUE))
  | rebalance rebal mesh =>
    cases hd : mesh.distributed
    · simp only [rebalanceApply, hd]
      exact (by decide : ActionInfoInv NONE)
    · simp only [rebalanceApply, hd]
      exact (by decide : ActionInfoInv (CONTINUE + REBALANCE))
  | seq cs mesh hmem ih =>
    exact seqApply_inv cs ih mesh

/-- Witness for C1 at the STOP value produced by a RefinementControl with an
    empty marked list. -/
theorem actionInfo_invariant_of_producible_witness : ActionInfoInv STOP :=
  actionInfo_invariant_of_producible STOP
    (Producible.refinement grefId [] (-1) 0 scenarioMesh)

/-- C7: when the marker's current marked-element list is empty,
    RefinementControl::Apply returns STOP and leaves the mesh unchanged
    (in particular the element count); otherwise it invokes the mesh's
    general refinement with the marked list and returns REFINE + CONTINUE. -/
theorem refinementApply_stop_or_refine
    (gref : Mesh → List Refinement → Int → Int → Mesh)
    (marked : List Refinement) (nc ncl : Int) (mesh : Mesh) :
    (marked = [] →
      refinementApply gref marked nc ncl mesh = (STOP, mesh) ∧
      (refinementApply gref marked nc ncl mesh).2.numElements
        = mesh.numElements) ∧
    (marked ≠ [] →
      refinementApply gref marked nc ncl mesh
        = (REFINE + CONTINUE, gref mesh marked nc ncl)) := by
  constructor
  · intro h
    subst h
    exact ⟨rfl, rfl⟩
  · intro h
    rcases marked with _ | ⟨a, as⟩
    · exact absurd rfl h
    · rfl

/-- Witness for C7 at an empty marked list on the scenario mesh. -/
theorem refinementApply_stop_or_refine_witness :
    refinementApply grefId [] (-1) 0 scenarioMesh = (STOP, scenarioMesh) ∧
    (refinementApply grefId [] (-1) 0 scenarioMesh).2.numElements
      = scenarioMesh.numElements :=
  (refinementApply_stop_or_refine grefId [] (-1) 0 scenarioMesh).1 rfl

/-- C8: calling GetMarkedElements when the mesh's live sequence is strictly
    below the cached stamp hits the MFEM_ASSERT and aborts (the error case);
    under the precondition current_sequence <= mesh.GetSequence() the error
    branch is unreachable and the call completes normally. -/
theorem getMarkedElements_assert (qp : ℚ → ℚ → ℚ) (tyf : Nat → Nat)
    (marker : ThresholdAMRMarker) (mesh : Mesh) (errs : List ℚ) :
    (mesh.sequence < marker.current_sequence →
      GetMarkedElements qp tyf marker mesh errs = Except.error ()) ∧
    (marker.current_sequence ≤ mesh.sequence →
      ∃ res, GetMarkedElements qp tyf marker mesh errs = Except.ok res) := by
  constructor
  · intro h
    have hn : ¬ marker.current_sequence ≤ mesh.sequence := not_le.mpr h
    simp only [GetMarkedElements, if_neg hn]
  · intro h
    by_cases hlt : marker.current_sequence < mesh.sequence
    · refine ⟨(MarkElements qp tyf marker mesh errs,
        (MarkElements qp tyf marker mesh errs).marked_elements), ?_⟩
      simp only [GetMarkedElements, if_pos h, if_pos hlt]
    · refine ⟨(marker, marker.marked_elements), ?_⟩
      simp only [GetMarkedElements, if_pos h, if_neg hlt]

/-- Witness for C8: the rolled-back marker (stamp 5, live sequence 1)
    aborts. -/
theorem getMarkedElements_assert_witness :
    GetMarkedElements qpZero tyIso rolledBackMarker scenarioMesh scenarioErrs
      = Except.error () :=
  (getMarkedElements_assert qpZero tyIso rolledBackMarker scenarioMesh
    scenarioErrs).1 (by decide)

/-- C5: GetMarkedElements recomputes exactly when the cached stamp is
    strictly below the mesh's live sequence; after recomputation the stamp
    equals the live sequence; hence a second call without an intervening
    mesh-version change returns the identical marked list and performs no
    recomputation. -/
theorem getMarkedElements_cache (qp : ℚ → ℚ → ℚ) (tyf : Nat → Nat)
    (marker : ThresholdAMRMarker) (mesh : Mesh) (errs : List ℚ)
    (h : marker.current_sequence ≤ mesh.sequence) :
    (needsRecompute marker mesh = true ↔
      marker.current_sequence < mesh.sequence) ∧
    (needsRecompute marker mesh = true →
      GetMarkedElements qp tyf marker mesh errs
        = Except.ok (MarkElements qp tyf marker mesh errs,
            (MarkElements qp tyf marker mesh errs).marked_elements) ∧
      (MarkElements qp tyf marker mesh errs).current_sequence
        = mesh.sequence) ∧
    (needsRecompute marker mesh = false →
      GetMarkedElements qp tyf marker mesh errs
        = Except.ok (marker, marker.marked_elements)) ∧
    (∀ m1 l1,
      GetMarkedElements qp tyf marker mesh errs = Except.ok (m1, l1) →
      needsRecompute m1 mesh = false ∧
      GetMarkedElements qp tyf m1 mesh errs = Except.ok (m1, l1)) := by
  have hrec : needsRecompute marker mesh = true ↔
      marker.current_sequence < mesh.sequence := by
    simp [needsRecompute]
  refine ⟨hrec, ?_, ?_, ?_⟩
  · intro ht
    have hlt := hrec.1 ht
    exact ⟨by simp only [GetMarkedElements, if_pos h, if_pos hlt], rfl⟩
  · intro hf
    have hnlt : ¬ marker.current_sequence < mesh.sequence := by
      simpa [needsRecompute] using hf
    simp only [GetMarkedElements, if_pos h, if_neg hnlt]
  · intro m1 l1 hok
    by_cases hlt : marker.current_sequence < mesh.sequence
    · have heq : GetMarkedElements qp tyf marker mesh errs
          = Except.ok (MarkElements qp tyf marker mesh errs,
              (MarkElements qp tyf marker mesh errs).marked_elements) := by
        simp only [GetMarkedElements, if_pos h, if_pos hlt]
      rw [heq] at hok
      simp only [Except.ok.injEq, Prod.mk.injEq] at hok
      obtain ⟨h1, h2⟩ := hok
      subst h1
      subst h2
      have hcs : (MarkElements qp tyf marker mesh errs).current_sequence
          = mesh.sequence := rfl
      constructor
      · simp [needsRecompute, hcs]
      · simp only [GetMarkedElements, hcs]
        rw [if_pos (le_refl mesh.sequence), if_neg (lt_irrefl mesh.sequence)]
    · have heq : GetMarkedElements qp tyf marker mesh errs
          = Except.ok (marker, marker.marked_elements) := by
        simp only [GetMarkedElements, if_pos h, if_neg hlt]
      rw [heq] at hok
      simp only [Except.ok.injEq, Prod.mk.injEq] at hok
      obtain ⟨h1, h2⟩ := hok
      subst h1
      subst h2
      constructor
      · simpa [needsRecompute] using hlt
      · exact heq

/-- Witness for C5 at the default marker (stamp 0) on the scenario mesh
    (live sequence 1). -/
theorem getMarkedElements_cache_witness :
    needsRecompute defaultMarker scenarioMesh = true ↔
      defaultMarker.current_sequence < scenarioMesh.sequence :=
  (getMarkedElements_cache qpZero tyIso defaultMarker scenarioMesh
    scenarioErrs (by decide)).1

/-- C9 counterexample: the setters accept and store invalid configuration
    values (a negative norm exponent, negative goals, a negative fraction, a
    negative element bound) instead of rejecting them; nothing in any setter
    validates its argument. -/
theorem setters_accept_invalid :
    (SetTotalErrorNormP defaultMarker (NormP.fin (-2))).total_norm_p
      = NormP.fin (-2) ∧
    (SetTotalErrorGoal defaultMarker (-3)).total_err_goal = -3 ∧
    (SetTotalErrorFraction defaultMarker (-1)).total_fraction = -1 ∧
    (SetLocalErrorGoal defaultMarker (-1)).local_err_goal = -1 ∧
    (SetMaxElements defaultMarker (-4)).max_elements = -4 :=
  ⟨rfl, rfl, rfl, rfl, rfl⟩

/-- C9 amended: the setters perform no validation at all; each stores its
    argument unconditionally, whether valid or not, so invalid configuration
    values are not rejected at configuration time. -/
theorem setters_store_unconditionally (m : ThresholdAMRMarker) (p : NormP)
    (a b c : ℚ) (n : Int) :
    (SetTotalErrorNormP m p).total_norm_p = p ∧
    (SetTotalErrorGoal m a).total_err_goal = a ∧
    (SetTotalErrorFraction m b).total_fraction = b ∧
    (SetLocalErrorGoal m c).local_err_goal = c ∧
    (SetMaxElements m n).max_elements = n :=
  ⟨rfl, rfl, rfl, rfl, rfl⟩

/-- C3: after a recomputation, element i is in the marked set exactly when
    err_i exceeds the threshold; the threshold is at least local_err_goal,
    so an error vector with every entry at most local_err_goal yields an
    empty marked set. -/
theorem marked_iff_gt_threshold (qp : ℚ → ℚ → ℚ) (tyf : Nat → Nat)
    (marker : ThresholdAMRMarker) (mesh : Mesh) (errs : List ℚ) :
    (∀ i : Nat,
      (∃ r ∈ (MarkElements qp tyf marker mesh errs).marked_elements,
        r.index = i) ↔
      (i < errs.length ∧
        (MarkElements qp tyf marker mesh errs).threshold < errs.getD i 0)) ∧
    marker.local_err_goal
      ≤ (MarkElements qp tyf marker mesh errs).threshold ∧
    ((∀ e ∈ errs, e ≤ marker.local_err_goal) →
      (MarkElements qp tyf marker mesh errs).marked_elements = []) := by
  have hth : (MarkElements qp tyf marker mesh errs).threshold
      = max (GetNorm qp marker.total_norm_p errs * marker.total_fraction *
          countFactor qp marker.total_norm_p errs.length)
        marker.local_err_goal := rfl
  have hml : (MarkElements qp tyf marker mesh errs).marked_elements
      = markList tyf (MarkElements qp tyf marker mesh errs).threshold
          errs 0 := rfl
  refine ⟨?_, ?_, ?_⟩
  · intro i
    have hidx := markList_index_mem tyf
      ((MarkElements qp tyf marker mesh errs).threshold) errs 0 i
    rw [hml]
    simpa using hidx
  · rw [hth]
    exact le_max_right _ _
  · intro hall
    rw [hml]
    apply markList_eq_nil
    intro e he
    refine le_trans (hall e he) ?_
    rw [hth]
    exact le_max_right _ _

/-- Witness for C3: an all-zero error vector with local_err_goal 0 marks
    nothing. -/
theorem marked_iff_gt_threshold_witness :
    (MarkElements qpZero tyIso defaultMarker scenarioMesh
      [0, 0]).marked_elements = [] :=
  (marked_iff_gt_threshold qpZero tyIso defaultMarker scenarioMesh
    [0, 0]).2.2 (by simp [defaultMarker])

/-- C2: total_err is the p-norm of the error vector ((sum err_i^p)^(1/p)
    for finite p, the maximum absolute error for p = infinity), the
    threshold is max(total_err * total_fraction * count^(-1/p),
    local_err_goal) with the count factor degenerating to 1 at p = infinity;
    and in the 4-element scenario with errors [0.1, 0.9, 0.05, 0.95],
    fraction 1/2, p = infinity and local goal 0, total_err is 0.95, the
    threshold is 0.475 and the marked elements are exactly indices 1 and 3. -/
theorem threshold_formula_and_scenario :
    (∀ (qp : ℚ → ℚ → ℚ) (p : ℚ) (errs : List ℚ),
      GetNorm qp (NormP.fin p) errs
        = qp (errs.foldr (fun e acc => qp e p + acc) 0) (1 / p)) ∧
    (∀ (qp : ℚ → ℚ → ℚ) (errs : List ℚ),
      GetNorm qp NormP.inf errs
        = errs.foldr (fun e acc => max (abs e) acc) 0) ∧
    (∀ (qp : ℚ → ℚ → ℚ) (tyf : Nat → Nat) (marker : ThresholdAMRMarker)
      (mesh : Mesh) (errs : List ℚ),
      (MarkElements qp tyf marker mesh errs).threshold
        = max (GetNorm qp marker.total_norm_p errs * marker.total_fraction *
            countFactor qp marker.total_norm_p errs.length)
          marker.local_err_goal) ∧
    (∀ (qp : ℚ → ℚ → ℚ) (n : Nat), countFactor qp NormP.inf n = 1) ∧
    GetNorm qpZero NormP.inf scenarioErrs = 19/20 ∧
    (MarkElements qpZero tyIso defaultMarker scenarioMesh
      scenarioErrs).threshold = 19/40 ∧
    ((MarkElements qpZero tyIso defaultMarker scenarioMesh
      scenarioErrs).marked_elements.map Refinement.index) = [1, 3] := by
  refine ⟨fun qp p errs => rfl, fun qp errs => rfl,
    fun qp tyf marker mesh errs => rfl, fun qp n => rfl, ?_, ?_, ?_⟩
  · norm_num [GetNorm, scenarioErrs, max_def, abs]
  · norm_num [MarkElements, GetNorm, countFactor, scenarioErrs,
      defaultMarker, max_def, abs]
  · norm_num [MarkElements, GetNorm, countFactor, markList, scenarioErrs,
      defaultMarker, max_def, abs]

/-- C6 counterexample: the claim's scenario asserts that a sequence of
    [RefinementControl, RebalanceControl] on a non-distributed mesh with
    nothing to refine reports NONE, but the RefinementControl member with an
    empty marked list reports STOP (an action other than NONE), so the
    sequence reports that member's value STOP, not NONE. -/
theorem seq_scenario_counterexample :
    (seqApply [refinementApply grefId [] (-1) 0, rebalanceApply id]
      scenarioMesh).1 = STOP ∧ STOP ≠ NONE := by
  constructor
  · decide
  · decide

/-- C6 amended: the sequence's Apply advances through the member list,
    invoking each member until one reports an action other than NONE, and
    returns that member's exact ActionInfo; if every member reports NONE,
    the result is NONE and the sequence's Update returns false.  In the
    cited scenario, however, the RefinementControl member with nothing to
    refine reports STOP, so the sequence reports STOP, with Update still
    returning false. -/
theorem seqApply_composition :
    (∀ (c : Mesh → Nat × Mesh) (rest : List (Mesh → Nat × Mesh))
      (mesh : Mesh),
      actionField (c mesh).1 ≠ NONE → seqApply (c :: rest) mesh = c mesh) ∧
    (∀ (c : Mesh → Nat × Mesh) (rest : List (Mesh → Nat × Mesh))
      (mesh : Mesh),
      actionField (c mesh).1 = NONE →
        seqApply (c :: rest) mesh = seqApply rest (c mesh).2) ∧
    (∀ (cs : List (Mesh → Nat × Mesh)) (mesh : Mesh),
      (∀ c ∈ cs, ∀ m, actionField (c m).1 = NONE) →
        (seqApply cs mesh).1 = NONE) ∧
    (∀ (cs : List (Mesh → Nat × Mesh)) (st : ControlState) (mesh : Mesh),
      (∀ c ∈ cs, ∀ m, actionField (c m).1 = NONE) →
        (Update (seqApply cs) st mesh).2.2 = false) ∧
    (seqApply [refinementApply grefId [] (-1) 0, rebalanceApply id]
      scenarioMesh).1 = STOP ∧
    (Update (seqApply [refinementApply grefId [] (-1) 0, rebalanceApply id])
      (ControlState.mk 0) scenarioMesh).2.2 = false := by
  refine ⟨?_, ?_, fun cs mesh h => seqApply_none cs mesh h, ?_, ?_, ?_⟩
  · intro c rest mesh hc
    simp only [seqApply, if_neg hc]
  · intro c rest mesh hc
    simp only [seqApply, if_pos hc]
  · intro cs st mesh h
    have h0 := seqApply_none cs mesh h
    show (((seqApply cs mesh).1 &&& UPDATE) != 0) = false
    rw [h0]
    decide
  · decide
  · decide

/-- Witness for C6: the empty sequence reports NONE. -/
theorem seqApply_composition_witness :
    (seqApply [] scenarioMesh).1 = NONE :=
  seqApply_composition.2.2.1 [] scenarioMesh (by simp)

end Mfem
